import Mathlib

/-!
Verification development for the Vimeo lightbox controller
(`src/lightbox.js`).  The script is a single-threaded, event-driven DOM
controller; we shallowly embed the state it mutates as explicit record
types and translate each method into a Lean function over those records.
Wall-clock time (`Date.now()` / timer deadlines) is passed explicitly as a
natural number of milliseconds; pointer geometry is embedded over `ℚ`.
-/

set_option autoImplicit false

namespace Hike

/-! ### Pure geometry of the timeline (lines 356-418)

`getBoundingClientRect()` results are abstracted to the two fields the
handlers actually read. -/

structure Rect where
  left : ℚ
  width : ℚ
  deriving Repr, DecidableEq

/-- The spec's pure function `positionToFraction(pointerX, trackRect)`:
`clamp((pointerX - trackRect.left) / trackRect.width, 0, 1)`. -/
def positionToFraction (pointerX : ℚ) (trackRect : Rect) : ℚ :=
  max 0 (min 1 ((pointerX - trackRect.left) / trackRect.width))

/-- Fraction computed by `handleTimelineClick` (lines 359-361):
`Math.max(0, Math.min(1, (e.clientX - rect.left) / rect.width))`. -/
def clickFraction (clientX : ℚ) (rect : Rect) : ℚ :=
  max 0 (min 1 ((clientX - rect.left) / rect.width))

/-- Fraction computed by `handleTimelineHover` (lines 371-373). -/
def hoverFraction (clientX : ℚ) (rect : Rect) : ℚ :=
  max 0 (min 1 ((clientX - rect.left) / rect.width))

/-- Fraction computed by `handleTimelineDrag` (lines 400-402). -/
def dragFraction (clientX : ℚ) (rect : Rect) : ℚ :=
  max 0 (min 1 ((clientX - rect.left) / rect.width))

/-- `String.prototype.padStart(2, '0')` restricted to the nonempty digit
strings produced by `toString` on an integer. -/
def padStart2 (s : String) : String :=
  if s.length < 2 then "0" ++ s else s

/-- `formatTime(seconds)` (lines 979-983).  JS computes
`Math.floor(seconds / 60)` and `Math.floor(seconds % 60)`; for the
nonnegative times this code feeds in, the latter equals
`⌊seconds⌋ - 60 * ⌊seconds / 60⌋`. -/
def formatTime (seconds : ℚ) : String :=
  let mins : Int := ⌊seconds / 60⌋
  let secs : Int := ⌊seconds⌋ - 60 * ⌊seconds / 60⌋
  toString mins ++ ":" ++ padStart2 (toString secs)

/-! ### Embed URL construction -/

/-- Preview (loop) embed URL built in `createLoopVideoIframe`, line 535. -/
def previewEmbedSrc (thumbnailId : String) : String :=
  "https://player.vimeo.com/video/" ++ thumbnailId ++
    "?background=1&autoplay=1&loop=1&muted=1&controls=0&title=0&byline=0&portrait=0&playsinline=1"

/-- Main modal embed URL built in `loadVideo`, lines 836-839; the branch is
on `isAutoplayRestricted()`. -/
def mainEmbedSrc (restricted : Bool) (vimeoId : String) : String :=
  if restricted then
    "https://player.vimeo.com/video/" ++ vimeoId ++
      "?background=1&autoplay=0&muted=0&controls=0&dnt=1&transparent=0&playsinline=1"
  else
    "https://player.vimeo.com/video/" ++ vimeoId ++
      "?autoplay=0&muted=0&controls=0&dnt=1&transparent=0&playsinline=1"

/-! ### Controller state

One record gathers the `VimeoLightbox` instance fields (constructor,
lines 106-127) together with the observable DOM bits the claims mention.
`livePlayers` is ghost instrumentation: the ids of `Vimeo.Player` handles
that have been constructed and not yet destroyed (`nextPlayerId` supplies
fresh ids).  `has*` fields record whether the corresponding optional DOM
element was found (`querySelector` results that the code null-checks). -/

structure LB where
  currentPlayer : Option Nat := none
  nextPlayerId : Nat := 0
  livePlayers : List Nat := []
  isPlaying : Bool := false
  isMuted : Bool := true
  videoDuration : ℚ := 0
  isDragging : Bool := false
  pauseTimeout : Option Nat := none
  toastLockUntil : Nat := 0
  toastActive : Bool := false
  toastText : String := ""
  hasPauseIndicator : Bool := true
  hasPauseText : Bool := true
  hasLoading : Bool := true
  loadingActive : Bool := false
  loadingTimeoutId : Option Nat := none
  allowLoader : Bool := false
  errorActive : Bool := false
  controlsHidden : Bool := false
  hasVideoFrame : Bool := true
  videoFrameSrc : String := ""
  hasTimelineContainer : Bool := true
  hasTimelineHoverTime : Bool := true
  videoTitleText : String := ""
  playBtnText : String := ""
  currentTimeText : String := ""
  totalTimeText : String := ""
  timelineFillPct : ℚ := 0
  lightboxActive : Bool := false
  savedScrollY : Nat := 0
  prevScrollBehavior : String := ""
  hadSmoother : Bool := false
  savedSmootherY : Int := 0
  deriving Repr, DecidableEq

/-- Page environment outside the controller instance: native scroll state of
the document and the optional ScrollSmoother plugin. `docTopStyle = some n`
models `documentElement.style.top = "<n>px"`; `none` models the empty
style. -/
structure World where
  pageScrollY : Nat := 0
  scrollBehavior : String := ""
  docPositionFixed : Bool := false
  docTopStyle : Option Int := none
  docLightboxClass : Bool := false
  bodyLightboxClass : Bool := false
  bodyOverflowHidden : Bool := false
  smootherPresent : Bool := false
  smootherY : Int := 0
  smootherPaused : Bool := false
  deriving Repr, DecidableEq

/-- Fresh controller instance (constructor defaults, lines 106-127; the
markup is assumed complete, as validated at lines 100-104). -/
def initLB : LB := {}

def initWorld : World := {}

/-! ### Small UI helpers -/

/-- `showLoading()` (lines 985-995): arm the 600ms loader timer. -/
def showLoading (s : LB) (now : Nat) : LB :=
  if s.hasLoading = false ∨ s.allowLoader = false then s
  else if s.loadingTimeoutId.isSome then s
  else { s with loadingTimeoutId := some (now + 600) }

/-- `hideLoading()` (lines 997-1004). -/
def hideLoading (s : LB) : LB :=
  if s.hasLoading = false then s
  else { s with loadingTimeoutId := none, loadingActive := false }

/-- `hideControls()` (lines 1074-1078). -/
def hideControls (s : LB) : LB :=
  { s with controlsHidden := true }

/-- `showControls()` (lines 1080-1084). -/
def showControls (s : LB) : LB :=
  { s with controlsHidden := false }

/-- `showError()` (lines 1059-1065): hide loading, show the placeholder,
hide controls. -/
def showError (s : LB) : LB :=
  hideControls { hideLoading s with errorActive := true }

/-- `hideError()` (lines 1067-1072): hide the placeholder, show controls. -/
def hideError (s : LB) : LB :=
  showControls { s with errorActive := false }

/-! ### Toast / feedback controller (lines 1006-1057) -/

/-- `showCenterToast(message, durationMs)` (lines 1022-1041), called at
wall-clock time `now`: clear any pending auto-hide, set the text, make the
indicator visible, record the lock `toastLockUntil = now + durationMs` and
schedule the auto-hide at that deadline. -/
def showCenterToast (s : LB) (now : Nat) (message : String) (durationMs : Nat) : LB :=
  if s.hasPauseIndicator = false then s
  else
    { s with
      toastText := if s.hasPauseText then message else s.toastText
      toastActive := true
      toastLockUntil := now + durationMs
      pauseTimeout := some (now + durationMs) }

/-- `hideCenterToast()` (lines 1043-1057) at time `now`: a no-op inside the
lock window (`toastLockUntil` truthy and `now < toastLockUntil`); otherwise
clear the pending timer and hide. -/
def hideCenterToast (s : LB) (now : Nat) : LB :=
  if s.hasPauseIndicator = false then s
  else if s.toastLockUntil ≠ 0 ∧ now < s.toastLockUntil then s
  else
    { s with
      pauseTimeout := none
      toastActive := false
      toastLockUntil := 0 }

/-- `showPauseIndicator()` (lines 1006-1016). -/
def showPauseIndicator (s : LB) (now : Nat) : LB :=
  if s.hasPauseIndicator = false then s
  else showCenterToast { s with pauseTimeout := none } now "Paused" 1000

/-- `hidePauseIndicator()` (lines 1018-1020). -/
def hidePauseIndicator (s : LB) (now : Nat) : LB :=
  hideCenterToast s now

/-! ### Player session lifecycle -/

/-- `resetControls()` (lines 1086-1109), called at wall-clock time `now`
(the `hidePauseIndicator` call inside reads `Date.now()` through
`hideCenterToast`).  `updateMuteButtonLabel` is a no-op because
`this.muteBtn = null` (line 127). -/
def resetControls (s : LB) (now : Nat) : LB :=
  let s := { s with
    playBtnText := "Play"
    isMuted := true
    currentTimeText := "0:00"
    totalTimeText := "0:00"
    isPlaying := false
    videoDuration := 0
    isDragging := false
    pauseTimeout := none }
  let s := hidePauseIndicator s now
  let s := showControls s
  { s with timelineFillPct := 0 }

/-- `recreateIframe()` (lines 482-522): discard the old iframe, create a
fresh one with empty `src`, reattach element references. -/
def recreateIframe (s : LB) : LB :=
  { s with hasVideoFrame := true, videoFrameSrc := "" }

/-- `loadVideo(vimeoId, { shouldAutoplayDesktop })` (lines 807-892),
synchronous part.  `restricted` is `isAutoplayRestricted()`;
`shouldAutoplayDesktop` only triggers best-effort playback requests whose
state effects the player itself reports later, so it does not change the
controller state here.  Constructing `new Vimeo.Player` is modelled by
allocating a fresh handle id onto the ghost `livePlayers` list; the
asynchronous `ready()` continuations and the 300ms controls-reveal timer
are modelled separately (`onReadyRejected`, `onControlsRevealTimer`). -/
def loadVideo (s : LB) (now : Nat) (restricted : Bool) (vimeoId : String)
    (_shouldAutoplayDesktop : Bool) : LB :=
  let s := { s with allowLoader := true }
  let s := showLoading s now
  let s := hideError s
  let s := hideControls s
  if vimeoId = "INVALID_VIDEO_ID_FOR_TESTING" then showError s
  else if s.hasVideoFrame = false then showError s
  else
    let s := { s with videoFrameSrc := mainEmbedSrc restricted vimeoId }
    { s with
      currentPlayer := some s.nextPlayerId
      livePlayers := s.nextPlayerId :: s.livePlayers
      nextPlayerId := s.nextPlayerId + 1 }

/-- The `ready()` rejection handler (lines 881-884): log and `showError`. -/
def onReadyRejected (s : LB) : LB :=
  showError s

/-- The `setTimeout(() => this.showControls(), 300)` armed at line 887. -/
def onControlsRevealTimer (s : LB) : LB :=
  showControls s

/-- After a `loadVideo` whose player construction succeeded but whose
`ready()` promise rejects at `tReject` ms after the call, two pending
callbacks are delivered in time order: the 300ms controls-reveal timer and
the rejection handler. -/
def afterReadyRejected (s : LB) (tReject : Nat) : LB :=
  if tReject < 300 then onControlsRevealTimer (onReadyRejected s)
  else onReadyRejected (onControlsRevealTimer s)

/-- `openLightbox(thumbnail)` (lines 671-744).  The tile's
`TileDescriptor` is passed as `vimeoId`/`title`; `restricted` is
`isAutoplayRestricted()` and determines `shouldAutoplayDesktop`
(line 742). The scroll lock prefers the smoother plugin when present and
otherwise fixes the document at the current offset. -/
def openLightbox (s : LB) (w : World) (now : Nat) (restricted : Bool)
    (vimeoId title : String) : LB × World :=
  let s := { s with videoTitleText := title, lightboxActive := true }
  if w.smootherPresent then
    let s := { s with hadSmoother := true, savedSmootherY := w.smootherY }
    let w := { w with
      smootherPaused := true
      docLightboxClass := true
      bodyLightboxClass := true
      bodyOverflowHidden := true }
    (loadVideo s now restricted vimeoId (!restricted), w)
  else
    let s := { s with
      savedScrollY := w.pageScrollY
      prevScrollBehavior := w.scrollBehavior }
    let w := { w with
      scrollBehavior := "auto"
      docTopStyle := some (-(w.pageScrollY : Int))
      docPositionFixed := true
      docLightboxClass := true
      bodyOverflowHidden := true
      bodyLightboxClass := true }
    (loadVideo s now restricted vimeoId (!restricted), w)

/-- `closeLightbox()` (lines 746-805) at wall-clock time `now`: remove the
active class, reverse whichever scroll lock was taken, destroy the player
handle, rebuild the iframe, reset controls and indicators.  On the native
path the target offset is `Math.abs(parseInt(style.top))` when the style
is nonempty, else the saved offset (line 776). -/
def closeLightbox (s : LB) (w : World) (now : Nat) : LB × World :=
  let s := { s with lightboxActive := false }
  let sw :=
    if s.hadSmoother then
      let w := { w with
        docLightboxClass := false
        bodyLightboxClass := false
        bodyOverflowHidden := false
        smootherY := s.savedSmootherY
        smootherPaused := false }
      ({ s with hadSmoother := false }, w)
    else
      let topStr := w.docTopStyle
      let w := { w with
        docPositionFixed := false
        docTopStyle := none
        docLightboxClass := false
        bodyOverflowHidden := false
        bodyLightboxClass := false }
      let targetY : Nat :=
        match topStr with
        | some n => n.natAbs
        | none => s.savedScrollY
      let w := { w with scrollBehavior := "auto" }
      let w := { w with pageScrollY := targetY }
      let w := { w with scrollBehavior := s.prevScrollBehavior }
      (s, w)
  let s := sw.1
  let s :=
    match s.currentPlayer with
    | some pid => { s with livePlayers := s.livePlayers.erase pid, currentPlayer := none }
    | none => s
  let s := recreateIframe s
  let s := resetControls s now
  let s := hideError s
  let s := hideLoading s
  (s, sw.2)

/-- `destroy()` (lines 178-185): tear down the handle if present, swallow
errors, clear the reference.  (Public method; not called by
`closeLightbox`, which inlines the same teardown.) -/
def destroy (s : LB) : LB :=
  match s.currentPlayer with
  | some pid => { s with livePlayers := s.livePlayers.erase pid, currentPlayer := none }
  | none => s

/-! ### Call sequences over the controller -/

/-- One externally-triggered controller call. -/
inductive Op where
  | openL (now : Nat) (restricted : Bool) (vimeoId title : String)
  | loadV (now : Nat) (restricted : Bool) (vimeoId : String) (auto : Bool)
  | closeL (now : Nat)
  deriving Repr, DecidableEq

def stepOp (st : LB × World) : Op → LB × World
  | .openL now r id ti => openLightbox st.1 st.2 now r id ti
  | .loadV now r id auto => (loadVideo st.1 now r id auto, st.2)
  | .closeL now => closeLightbox st.1 st.2 now

/-- Final state after a sequence of calls. -/
def runOps (st : LB × World) : List Op → LB × World
  | [] => st
  | op :: ops => runOps (stepOp st op) ops

/-- All states visited during a sequence of calls (initial state included). -/
def runTrace (st : LB × World) : List Op → List (LB × World)
  | [] => [st]
  | op :: ops => st :: runTrace (stepOp st op) ops

/-- Parameters of one open-then-close cycle. -/
structure CycleParams where
  tOpen : Nat
  restricted : Bool
  vid : String
  title : String
  tClose : Nat
  deriving Repr, DecidableEq

/-- The call sequence of repeated open-then-close cycles. -/
def cycleOps (ps : List CycleParams) : List Op :=
  (ps.map fun p => [Op.openL p.tOpen p.restricted p.vid p.title, Op.closeL p.tClose]).flatten

/-! ### Timeline event handlers (lines 356-434)

The DOM writes each handler performs are recorded as a list of effects;
an empty list means the handler returned without doing anything. -/

inductive TLEffect where
  | seek (t : ℚ)
  | setFill (pct : ℚ)
  | setHandle (pct : ℚ)
  | setHoverText (txt : String)
  | setHoverLeft (x : ℚ)
  | setHoverOpacity (v : String)
  | setHoverVisibility (v : String)
  deriving Repr, DecidableEq

structure PointerEv where
  clientX : ℚ
  deriving Repr, DecidableEq

/-- `updateTimelinePosition(percentage)` (lines 430-434). -/
def updateTimelinePosition (pct : ℚ) : List TLEffect :=
  [.setFill pct, .setHandle pct]

/-- `handleTimelineClick(e)` (lines 356-366): guarded by
`!this.currentPlayer || this.videoDuration === 0`. -/
def handleTimelineClick (s : LB) (trackRect : Rect) (e : PointerEv) : List TLEffect :=
  if s.currentPlayer = none ∨ s.videoDuration = 0 then []
  else
    let pct := clickFraction e.clientX trackRect
    .seek (pct * s.videoDuration) :: updateTimelinePosition pct

/-- `handleTimelineHover(e)` (lines 368-384): guarded by
`!this.timelineContainer || this.videoDuration === 0` (it does not check
`currentPlayer`), and never issues a seek. -/
def handleTimelineHover (s : LB) (trackRect containerRect : Rect) (e : PointerEv) :
    List TLEffect :=
  if s.hasTimelineContainer = false ∨ s.videoDuration = 0 then []
  else
    let pct := hoverFraction e.clientX trackRect
    [.setHoverText (formatTime (pct * s.videoDuration)),
     .setHoverLeft (e.clientX - containerRect.left),
     .setHoverOpacity "1"]

/-- `handleTimelineDrag(e)` (lines 397-418): guarded like click; seeks
continuously and refreshes the hover label. -/
def handleTimelineDrag (s : LB) (trackRect containerRect : Rect) (e : PointerEv) :
    List TLEffect :=
  if s.currentPlayer = none ∨ s.videoDuration = 0 then []
  else
    let pct := dragFraction e.clientX trackRect
    let seekTime := pct * s.videoDuration
    (.seek seekTime :: updateTimelinePosition pct) ++
      (if s.hasTimelineHoverTime ∧ s.hasTimelineContainer then
        [.setHoverText (formatTime seekTime),
         .setHoverLeft (e.clientX - containerRect.left),
         .setHoverVisibility "visible",
         .setHoverOpacity "1"]
      else [])

/-- `timeupdate` bridge (lines 928-937): display the formatted time and,
when not dragging and a duration is cached, recompute the fill fraction. -/
def onTimeUpdate (s : LB) (seconds : ℚ) : LB :=
  let s := { s with currentTimeText := formatTime seconds }
  if s.isDragging = false ∧ s.videoDuration > 0 then
    { s with timelineFillPct := seconds / s.videoDuration }
  else s

/-! ### togglePlayPause (lines 950-977)

Player-facing requests are recorded as commands.  A promise chain is
parameterised by `failIdx`, the 0-based index of the first chain step
whose promise rejects (`none` when every step succeeds); a rejection skips
the remaining `then` steps and runs the `catch` handler.  The
`updateMuteButtonLabel()` calls are no-ops (`muteBtn = null`). -/

inductive PCmd where
  | setMutedFalse
  | setVolumeFull
  | play
  | pause
  deriving Repr, DecidableEq

/-- `togglePlayPause()` at time `now` on a platform where
`isAutoplayRestricted()` returns `restricted`.  Returns the new controller
state and the list of requests issued to the player handle. -/
def togglePlayPause (s : LB) (now : Nat) (restricted : Bool) (failIdx : Option Nat) :
    LB × List PCmd :=
  match s.currentPlayer with
  | none => (s, [])
  | some _ =>
    if s.isPlaying then
      if restricted && s.isMuted then
        -- unmute chain: setMuted(false), setVolume(1), then update state; catch ⇒ nothing
        match failIdx with
        | some 0 => (s, [.setMutedFalse])
        | some 1 => (s, [.setMutedFalse, .setVolumeFull])
        | some (_ + 2) =>
          (hideCenterToast { s with isMuted := false } now,
           [.setMutedFalse, .setVolumeFull])
        | none =>
          (hideCenterToast { s with isMuted := false } now,
           [.setMutedFalse, .setVolumeFull])
      else (s, [.pause])
    else
      if restricted && s.isMuted then
        -- unmute-and-play chain; catch ⇒ bare play request
        match failIdx with
        | some 0 => (s, [.setMutedFalse, .play])
        | some 1 => (s, [.setMutedFalse, .setVolumeFull, .play])
        | some 2 => (s, [.setMutedFalse, .setVolumeFull, .play, .play])
        | some (_ + 3) =>
          (hideCenterToast { s with isMuted := false } now,
           [.setMutedFalse, .setVolumeFull, .play])
        | none =>
          (hideCenterToast { s with isMuted := false } now,
           [.setMutedFalse, .setVolumeFull, .play])
      else (s, [.play])

/-! ### Preview tile failure detection (lines 524-598)

One preview iframe's asynchronous life is summarised by when (if ever) its
`load` and `error` events fire, whether the tile is visible at each
instant, and whether the iframe had zero rendered dimensions at the
settle check. -/

structure TileRun where
  visibleAt : Nat → Bool
  loadAt : Option Nat
  errorAt : Option Nat
  zeroDimsAtSettle : Bool

/-- The invalid-id guard of `createLoopVideoIframe` (lines 528-531). -/
def validThumbnailId (id : String) : Bool :=
  !(id = "" || id = "INVALID_ID_FOR_TESTING" || id = "undefined")

/-- The 5s failure timer (lines 561-567) runs unless the `load` event
cleared it first (line 572). -/
def timerFires (r : TileRun) : Bool :=
  match r.loadAt with
  | some tl => decide (5000 < tl)
  | none => true

/-- Marking by the 5s timer: it skips hidden tiles. -/
def markedByTimer (r : TileRun) : Bool :=
  timerFires r && r.visibleAt 5000

/-- Marking by the post-`load` 1s settle check (lines 575-586): skips
hidden tiles, marks on zero rendered dimensions. -/
def markedBySettle (r : TileRun) : Bool :=
  match r.loadAt with
  | some tl => r.visibleAt (tl + 1000) && r.zeroDimsAtSettle
  | none => false

/-- Marking by the iframe `error` event (lines 555-558): unconditional. -/
def markedByError (r : TileRun) : Bool :=
  r.errorAt.isSome

/-- Whether the tile ever gains the `video-failed` class. -/
def videoFailed (r : TileRun) : Bool :=
  markedByError r || markedByTimer r || markedBySettle r

/-! ### Initialization flow (lines 7-60, 1124-1157)

Each activation step's observable actions are recorded.  `armObserver`
would be a call to `observeDOMForLightbox` — the source defines that
function (lines 48-60) but never invokes it. -/

inductive InitAct where
  | scheduleRetry (delayMs : Nat)
  | logError (msg : String)
  | constructLightbox
  | armObserver
  deriving Repr, DecidableEq

/-- What the page looks like at the k-th poll: is `Vimeo` defined, is the
`#lightbox` element present, is the full markup (lightbox plus at least
one thumbnail or tile) present. -/
structure PageEnv where
  vimeoReady : Nat → Bool
  lightboxPresent : Nat → Bool
  markupReady : Nat → Bool

def maxVimeoApiAttempts : Nat := 20

def maxAttempts : Nat := 10

/-- `initLightbox()` (lines 13-33 and 1119-1121): retry while `Vimeo` is
undefined (bounded by `maxVimeoApiAttempts`), retry while the lightbox
element is missing (unbounded in the source, hence the `fuel` bound of the
embedding), then construct the controller.  `call` counts invocations so
the environment can evolve between polls. -/
def initTrace (env : PageEnv) : Nat → Nat → Nat → List InitAct
  | 0, _, _ => []
  | fuel + 1, vimeoAttempts, call =>
    if env.vimeoReady call = false then
      if vimeoAttempts < maxVimeoApiAttempts then
        .scheduleRetry 100 :: initTrace env fuel (vimeoAttempts + 1) (call + 1)
      else [.logError "Vimeo API failed to load"]
    else if env.lightboxPresent call = false then
      .scheduleRetry 100 :: initTrace env fuel vimeoAttempts (call + 1)
    else [.constructLightbox]

/-- `tryInitLightbox()` (lines 1128-1150): increment `initAttempts`, call
`initLightbox` when the markup is ready, otherwise retry after 500ms up to
`maxAttempts` total attempts, then log a fatal error. -/
def tryInitTrace (env : PageEnv) : Nat → Nat → List InitAct
  | 0, _ => []
  | fuel + 1, attempts =>
    let k := attempts + 1
    if env.markupReady k then initTrace env fuel 0 0
    else if k < maxAttempts then .scheduleRetry 500 :: tryInitTrace env fuel k
    else [.logError "Failed to initialize lightbox. Check HTML structure."]

/-- The `MutationObserver` callback of `observeDOMForLightbox`
(lines 49-57): returns `true` exactly when it would disconnect and
re-trigger `initLightbox`. -/
def observerCallbackFires (lightboxExists thumbnailsExist tilesExist : Bool) : Bool :=
  lightboxExists && (thumbnailsExist || tilesExist)

/-- The observer's self-disconnect deadline (line 59). -/
def observerTimeoutMs : Nat := 10000

/-! ### Preservation lemmas for the UI helpers

Each helper touches only loading / error / toast presentation fields; the
player-handle and scroll-lock fields pass through unchanged. -/

@[simp] theorem showLoading_fields (s : LB) (now : Nat) :
    (showLoading s now).currentPlayer = s.currentPlayer ∧
    (showLoading s now).livePlayers = s.livePlayers ∧
    (showLoading s now).nextPlayerId = s.nextPlayerId ∧
    (showLoading s now).hasVideoFrame = s.hasVideoFrame ∧
    (showLoading s now).savedScrollY = s.savedScrollY ∧
    (showLoading s now).prevScrollBehavior = s.prevScrollBehavior ∧
    (showLoading s now).hadSmoother = s.hadSmoother ∧
    (showLoading s now).savedSmootherY = s.savedSmootherY := by
  unfold showLoading
  split
  · simp
  · split <;> simp

@[simp] theorem hideLoading_fields (s : LB) :
    (hideLoading s).currentPlayer = s.currentPlayer ∧
    (hideLoading s).livePlayers = s.livePlayers ∧
    (hideLoading s).nextPlayerId = s.nextPlayerId ∧
    (hideLoading s).hasVideoFrame = s.hasVideoFrame ∧
    (hideLoading s).savedScrollY = s.savedScrollY ∧
    (hideLoading s).prevScrollBehavior = s.prevScrollBehavior ∧
    (hideLoading s).hadSmoother = s.hadSmoother ∧
    (hideLoading s).savedSmootherY = s.savedSmootherY := by
  unfold hideLoading
  split <;> simp

@[simp] theorem hideControls_fields (s : LB) :
    (hideControls s).currentPlayer = s.currentPlayer ∧
    (hideControls s).livePlayers = s.livePlayers ∧
    (hideControls s).nextPlayerId = s.nextPlayerId ∧
    (hideControls s).hasVideoFrame = s.hasVideoFrame ∧
    (hideControls s).savedScrollY = s.savedScrollY ∧
    (hideControls s).prevScrollBehavior = s.prevScrollBehavior ∧
    (hideControls s).hadSmoother = s.hadSmoother ∧
    (hideControls s).savedSmootherY = s.savedSmootherY := by
  unfold hideControls
  simp

@[simp] theorem showControls_fields (s : LB) :
    (showControls s).currentPlayer = s.currentPlayer ∧
    (showControls s).livePlayers = s.livePlayers ∧
    (showControls s).nextPlayerId = s.nextPlayerId ∧
    (showControls s).hasVideoFrame = s.hasVideoFrame ∧
    (showControls s).savedScrollY = s.savedScrollY ∧
    (showControls s).prevScrollBehavior = s.prevScrollBehavior ∧
    (showControls s).hadSmoother = s.hadSmoother ∧
    (showControls s).savedSmootherY = s.savedSmootherY := by
  unfold showControls
  simp

@[simp] theorem showError_fields (s : LB) :
    (showError s).currentPlayer = s.currentPlayer ∧
    (showError s).livePlayers = s.livePlayers ∧
    (showError s).nextPlayerId = s.nextPlayerId ∧
    (showError s).hasVideoFrame = s.hasVideoFrame ∧
    (showError s).savedScrollY = s.savedScrollY ∧
    (showError s).prevScrollBehavior = s.prevScrollBehavior ∧
    (showError s).hadSmoother = s.hadSmoother ∧
    (showError s).savedSmootherY = s.savedSmootherY := by
  unfold showError
  simp

@[simp] theorem hideError_fields (s : LB) :
    (hideError s).currentPlayer = s.currentPlayer ∧
    (hideError s).livePlayers = s.livePlayers ∧
    (hideError s).nextPlayerId = s.nextPlayerId ∧
    (hideError s).hasVideoFrame = s.hasVideoFrame ∧
    (hideError s).savedScrollY = s.savedScrollY ∧
    (hideError s).prevScrollBehavior = s.prevScrollBehavior ∧
    (hideError s).hadSmoother = s.hadSmoother ∧
    (hideError s).savedSmootherY = s.savedSmootherY := by
  unfold hideError
  simp

@[simp] theorem showCenterToast_fields (s : LB) (now : Nat) (msg : String) (d : Nat) :
    (showCenterToast s now msg d).currentPlayer = s.currentPlayer ∧
    (showCenterToast s now msg d).livePlayers = s.livePlayers ∧
    (showCenterToast s now msg d).nextPlayerId = s.nextPlayerId ∧
    (showCenterToast s now msg d).hasVideoFrame = s.hasVideoFrame ∧
    (showCenterToast s now msg d).savedScrollY = s.savedScrollY ∧
    (showCenterToast s now msg d).prevScrollBehavior = s.prevScrollBehavior ∧
    (showCenterToast s now msg d).hadSmoother = s.hadSmoother ∧
    (showCenterToast s now msg d).savedSmootherY = s.savedSmootherY := by
  unfold showCenterToast
  split <;> simp

@[simp] theorem hideCenterToast_fields (s : LB) (now : Nat) :
    (hideCenterToast s now).currentPlayer = s.currentPlayer ∧
    (hideCenterToast s now).livePlayers = s.livePlayers ∧
    (hideCenterToast s now).nextPlayerId = s.nextPlayerId ∧
    (hideCenterToast s now).hasVideoFrame = s.hasVideoFrame ∧
    (hideCenterToast s now).savedScrollY = s.savedScrollY ∧
    (hideCenterToast s now).prevScrollBehavior = s.prevScrollBehavior ∧
    (hideCenterToast s now).hadSmoother = s.hadSmoother ∧
    (hideCenterToast s now).savedSmootherY = s.savedSmootherY := by
  unfold hideCenterToast
  split
  · simp
  · split <;> simp

@[simp] theorem hidePauseIndicator_fields (s : LB) (now : Nat) :
    (hidePauseIndicator s now).currentPlayer = s.currentPlayer ∧
    (hidePauseIndicator s now).livePlayers = s.livePlayers ∧
    (hidePauseIndicator s now).nextPlayerId = s.nextPlayerId ∧
    (hidePauseIndicator s now).hasVideoFrame = s.hasVideoFrame ∧
    (hidePauseIndicator s now).savedScrollY = s.savedScrollY ∧
    (hidePauseIndicator s now).prevScrollBehavior = s.prevScrollBehavior ∧
    (hidePauseIndicator s now).hadSmoother = s.hadSmoother ∧
    (hidePauseIndicator s now).savedSmootherY = s.savedSmootherY := by
  unfold hidePauseIndicator
  simp

@[simp] theorem resetControls_fields (s : LB) (now : Nat) :
    (resetControls s now).currentPlayer = s.currentPlayer ∧
    (resetControls s now).livePlayers = s.livePlayers ∧
    (resetControls s now).nextPlayerId = s.nextPlayerId ∧
    (resetControls s now).hasVideoFrame = s.hasVideoFrame ∧
    (resetControls s now).savedScrollY = s.savedScrollY ∧
    (resetControls s now).prevScrollBehavior = s.prevScrollBehavior ∧
    (resetControls s now).hadSmoother = s.hadSmoother ∧
    (resetControls s now).savedSmootherY = s.savedSmootherY := by
  unfold resetControls
  simp

@[simp] theorem recreateIframe_fields (s : LB) :
    (recreateIframe s).currentPlayer = s.currentPlayer ∧
    (recreateIframe s).livePlayers = s.livePlayers ∧
    (recreateIframe s).nextPlayerId = s.nextPlayerId ∧
    (recreateIframe s).savedScrollY = s.savedScrollY ∧
    (recreateIframe s).prevScrollBehavior = s.prevScrollBehavior ∧
    (recreateIframe s).hadSmoother = s.hadSmoother ∧
    (recreateIframe s).savedSmootherY = s.savedSmootherY := by
  unfold recreateIframe
  simp

@[simp] theorem loadVideo_scroll_fields (s : LB) (now : Nat) (r : Bool) (id : String) (a : Bool) :
    (loadVideo s now r id a).savedScrollY = s.savedScrollY ∧
    (loadVideo s now r id a).prevScrollBehavior = s.prevScrollBehavior ∧
    (loadVideo s now r id a).hadSmoother = s.hadSmoother ∧
    (loadVideo s now r id a).savedSmootherY = s.savedSmootherY := by
  refine ⟨?_, ?_, ?_, ?_⟩ <;>
    (simp only [loadVideo]
     split
     · simp
     · split <;> simp)

/-! ### The single-handle invariant -/

/-- The ghost handle list holds exactly the handle `currentPlayer` refers
to (so there are no leaked handles). -/
def handleInv (s : LB) : Prop :=
  s.livePlayers = s.currentPlayer.toList

theorem handleInv_length {s : LB} (h : handleInv s) : s.livePlayers.length ≤ 1 := by
  unfold handleInv at h
  cases hc : s.currentPlayer <;> simp [hc] at h <;> simp [h]

theorem loadVideo_handle (s : LB) (now : Nat) (r : Bool) (id : String) (a : Bool)
    (h1 : s.currentPlayer = none) (h2 : s.livePlayers = []) :
    handleInv (loadVideo s now r id a) := by
  unfold handleInv
  simp only [loadVideo]
  split
  · simp [h1, h2]
  · split
    · simp [h1, h2]
    · simp [h2]

theorem openLightbox_handle (s : LB) (w : World) (now : Nat) (r : Bool) (id ti : String)
    (h1 : s.currentPlayer = none) (h2 : s.livePlayers = []) :
    handleInv (openLightbox s w now r id ti).1 := by
  simp only [openLightbox]
  split
  all_goals
    dsimp only
    exact loadVideo_handle _ _ _ _ _ (by simp [h1]) (by simp [h2])

theorem closeLightbox_handle (s : LB) (w : World) (now : Nat) (h : handleInv s) :
    (closeLightbox s w now).1.currentPlayer = none ∧
    (closeLightbox s w now).1.livePlayers = [] := by
  unfold handleInv at h
  simp only [closeLightbox]
  cases hsm : s.hadSmoother <;> cases hc : s.currentPlayer <;> simp_all

/-! ### Claim theorems -/

/-- C1 counterexample: the claim quantifies over every sequence of
`openLightbox` / `loadVideo` / `closeLightbox` calls, but `loadVideo`
(reached by every `openLightbox`) constructs a new `Vimeo.Player` without
tearing down `currentPlayer` first (lines 843-857 contain no `destroy`).
Two consecutive opens therefore leave two live handles: the first one is
leaked, never destroyed before the second is constructed. -/
theorem C1_counterexample :
    (runOps (initLB, initWorld)
        [Op.openL 0 false "123" "Demo", Op.openL 5 false "123" "Demo"]).1.livePlayers.length = 2 ∧
    (runOps (initLB, initWorld)
        [Op.openL 0 false "123" "Demo", Op.openL 5 false "123" "Demo"]).1.currentPlayer = some 1 := by
  constructor <;> rfl

/-- C1 (amended): `closeLightbox` destroys and nulls the handle before the
controller is handle-free again, but `loadVideo` itself never tears down a
previous handle; the at-most-one-live-handle invariant therefore holds for
sequences of open-then-close cycles (every load starting handle-free), and
repeated cycles never leak: every state visited carries at most one live
handle and each cycle ends with none. -/
theorem C1_single_handle_cycles (s : LB) (w : World) (ps : List CycleParams)
    (h1 : s.currentPlayer = none) (h2 : s.livePlayers = []) :
    (∀ st ∈ runTrace (s, w) (cycleOps ps), st.1.livePlayers.length ≤ 1) ∧
    (runOps (s, w) (cycleOps ps)).1.currentPlayer = none ∧
    (runOps (s, w) (cycleOps ps)).1.livePlayers = [] := by
  induction ps generalizing s w with
  | nil =>
    refine ⟨?_, ?_, ?_⟩
    · intro st hst
      simp only [cycleOps, List.map_nil, List.flatten_nil, runTrace,
        List.mem_singleton] at hst
      subst hst
      simp [h2]
    · simp [cycleOps, runOps, h1]
    · simp [cycleOps, runOps, h2]
  | cons p ps ih =>
    have hcyc : cycleOps (p :: ps) =
        Op.openL p.tOpen p.restricted p.vid p.title :: Op.closeL p.tClose :: cycleOps ps := by
      simp [cycleOps]
    have hopen : handleInv (openLightbox s w p.tOpen p.restricted p.vid p.title).1 :=
      openLightbox_handle s w p.tOpen p.restricted p.vid p.title h1 h2
    have hclose :=
      closeLightbox_handle (openLightbox s w p.tOpen p.restricted p.vid p.title).1
        (openLightbox s w p.tOpen p.restricted p.vid p.title).2 p.tClose hopen
    have ihx :=
      ih (closeLightbox (openLightbox s w p.tOpen p.restricted p.vid p.title).1
            (openLightbox s w p.tOpen p.restricted p.vid p.title).2 p.tClose).1
         (closeLightbox (openLightbox s w p.tOpen p.restricted p.vid p.title).1
            (openLightbox s w p.tOpen p.restricted p.vid p.title).2 p.tClose).2
         hclose.1 hclose.2
    rw [hcyc]
    refine ⟨?_, ?_, ?_⟩
    · intro st hst
      simp only [runTrace, stepOp, List.mem_cons] at hst
      rcases hst with rfl | hst
      · simp [h2]
      rcases hst with rfl | hst
      · exact handleInv_length hopen
      · exact ihx.1 st hst
    · simp only [runOps, stepOp]
      exact ihx.2.1
    · simp only [runOps, stepOp]
      exact ihx.2.2

/-- C1 witness: one concrete open-then-close cycle from the fresh
controller, with the hypotheses discharged. -/
theorem C1_single_handle_cycles_witness :
    initLB.currentPlayer = none ∧ initLB.livePlayers = [] ∧
    (∀ st ∈ runTrace (initLB, initWorld) (cycleOps [⟨0, false, "123", "Demo", 10⟩]),
      st.1.livePlayers.length ≤ 1) ∧
    (runOps (initLB, initWorld) (cycleOps [⟨0, false, "123", "Demo", 10⟩])).1.livePlayers = [] := by
  refine ⟨rfl, rfl, ?_, ?_⟩
  · exact (C1_single_handle_cycles initLB initWorld [⟨0, false, "123", "Demo", 10⟩] rfl rfl).1
  · exact (C1_single_handle_cycles initLB initWorld [⟨0, false, "123", "Demo", 10⟩] rfl rfl).2.2

/-- C2: after `showCenterToast` at time `T` with duration `d`, any
`hideCenterToast` strictly inside the lock window is an exact no-op (the
toast stays visible); the auto-hide timer firing at `T + d` (it calls
`hideCenterToast` then) hides the toast and clears the pending timer, and
so does any hide at or after the deadline. -/
theorem C2_toast_min_duration (s : LB) (T d t : Nat) (msg : String)
    (hInd : s.hasPauseIndicator = true) :
    (t < T + d →
      hideCenterToast (showCenterToast s T msg d) t = showCenterToast s T msg d ∧
      (showCenterToast s T msg d).toastActive = true) ∧
    ((hideCenterToast (showCenterToast s T msg d) (T + d)).toastActive = false ∧
      (hideCenterToast (showCenterToast s T msg d) (T + d)).pauseTimeout = none) ∧
    (T + d ≤ t →
      (hideCenterToast (showCenterToast s T msg d) t).toastActive = false ∧
      (hideCenterToast (showCenterToast s T msg d) t).pauseTimeout = none) := by
  refine ⟨?_, ?_, ?_⟩
  · intro ht
    have hne : T + d ≠ 0 := by omega
    constructor
    · simp [showCenterToast, hideCenterToast, hInd, hne, ht]
    · simp [showCenterToast, hInd]
  · simp [showCenterToast, hideCenterToast, hInd]
  · intro ht
    have hnlt : ¬ t < T + d := by omega
    simp [showCenterToast, hideCenterToast, hInd, hnlt]

/-- C2 witness: a toast shown with `durationMs = 1000` at `T = 0` is still
visible when hidden at `T + 500` and is hidden by the timer at `T + 1000`. -/
theorem C2_toast_min_duration_witness :
    initLB.hasPauseIndicator = true ∧
    hideCenterToast (showCenterToast initLB 0 "Paused" 1000) 500 =
      showCenterToast initLB 0 "Paused" 1000 ∧
    (showCenterToast initLB 0 "Paused" 1000).toastActive = true ∧
    (hideCenterToast (showCenterToast initLB 0 "Paused" 1000) 1000).toastActive = false := by
  refine ⟨rfl, ?_, ?_, ?_⟩
  · exact ((C2_toast_min_duration initLB 0 1000 500 "Paused" rfl).1 (by omega)).1
  · exact ((C2_toast_min_duration initLB 0 1000 500 "Paused" rfl).1 (by omega)).2
  · exact (C2_toast_min_duration initLB 0 1000 500 "Paused" rfl).2.1.1

/-- C3: the click, hover and drag handlers all compute the same fraction,
equal to `clamp((pointerX - left) / width, 0, 1)`; on a track of positive
width the fraction lies in `[0,1]`, is monotone in the pointer offset, and
clamps exactly to `0` left of the track and `1` right of it. -/
theorem C3_position_to_fraction (rect : Rect) (hw : 0 < rect.width) :
    (∀ x, clickFraction x rect = positionToFraction x rect) ∧
    (∀ x, hoverFraction x rect = positionToFraction x rect) ∧
    (∀ x, dragFraction x rect = positionToFraction x rect) ∧
    (∀ x, 0 ≤ positionToFraction x rect ∧ positionToFraction x rect ≤ 1) ∧
    (∀ x y, x ≤ y → positionToFraction x rect ≤ positionToFraction y rect) ∧
    (∀ x, x < rect.left → positionToFraction x rect = 0) ∧
    (∀ x, rect.left + rect.width < x → positionToFraction x rect = 1) := by
  refine ⟨fun x => rfl, fun x => rfl, fun x => rfl, ?_, ?_, ?_, ?_⟩
  · intro x
    exact ⟨le_max_left _ _, max_le (by norm_num) (min_le_left _ _)⟩
  · intro x y hxy
    have h1 : (x - rect.left) / rect.width ≤ (y - rect.left) / rect.width := by
      gcongr
    exact max_le_max le_rfl (min_le_min le_rfl h1)
  · intro x hx
    have hq : (x - rect.left) / rect.width < 0 :=
      div_neg_of_neg_of_pos (by linarith) hw
    unfold positionToFraction
    rw [min_eq_right (by linarith), max_eq_left (by linarith)]
  · intro x hx
    have hq : 1 < (x - rect.left) / rect.width := by
      rw [lt_div_iff₀ hw]
      linarith
    unfold positionToFraction
    rw [min_eq_left (by linarith), max_eq_right (by norm_num)]

/-- C3 witness: a concrete positive-width track, with a pointer right of
the track clamped to exactly 1. -/
theorem C3_position_to_fraction_witness :
    (0 : ℚ) < (Rect.mk 0 2).width ∧ positionToFraction 3 (Rect.mk 0 2) = 1 :=
  ⟨by norm_num,
    (C3_position_to_fraction ⟨0, 2⟩ (by norm_num)).2.2.2.2.2.2 3 (by norm_num)⟩

/-- C5: the preview embed and the two main-modal embeds carry exactly the
specified query strings. -/
theorem C5_embed_urls (id : String) :
    previewEmbedSrc id =
      "https://player.vimeo.com/video/" ++ id ++ "?" ++
        "background=1&autoplay=1&loop=1&muted=1&controls=0&title=0&byline=0&portrait=0&playsinline=1" ∧
    mainEmbedSrc true id =
      "https://player.vimeo.com/video/" ++ id ++ "?" ++
        "background=1&autoplay=0&muted=0&controls=0&dnt=1&transparent=0&playsinline=1" ∧
    mainEmbedSrc false id =
      "https://player.vimeo.com/video/" ++ id ++ "?" ++
        "autoplay=0&muted=0&controls=0&dnt=1&transparent=0&playsinline=1" := by
  refine ⟨?_, ?_, ?_⟩ <;> simp [previewEmbedSrc, mainEmbedSrc, String.append_assoc]

/-! ### Scroll-restoration lemmas for C4 -/

theorem closeLightbox_world_smoother (s : LB) (w : World) (now : Nat)
    (h : s.hadSmoother = true) :
    (closeLightbox s w now).2.smootherY = s.savedSmootherY ∧
    (closeLightbox s w now).2.smootherPaused = false := by
  simp [closeLightbox, h]

theorem closeLightbox_world_native (s : LB) (w : World) (now : Nat)
    (h : s.hadSmoother = false) :
    (closeLightbox s w now).2.pageScrollY =
      (match w.docTopStyle with
       | some n => n.natAbs
       | none => s.savedScrollY) := by
  simp [closeLightbox, h]

/-- C4: an open-then-close round trip restores the scroll position
captured at open time on both scroll-lock paths: the smoother path resumes
at the captured `savedSmootherY` with smoothing re-enabled, the native
fixed-position path jump-scrolls back to the captured page offset. -/
theorem C4_scroll_roundtrip (s : LB) (w : World) (t1 t2 : Nat) (r : Bool)
    (id ti : String) (hs : s.hadSmoother = false) :
    (w.smootherPresent = true →
      (closeLightbox (openLightbox s w t1 r id ti).1
          (openLightbox s w t1 r id ti).2 t2).2.smootherY = w.smootherY ∧
      (closeLightbox (openLightbox s w t1 r id ti).1
          (openLightbox s w t1 r id ti).2 t2).2.smootherPaused = false) ∧
    (w.smootherPresent = false →
      (closeLightbox (openLightbox s w t1 r id ti).1
          (openLightbox s w t1 r id ti).2 t2).2.pageScrollY = w.pageScrollY) := by
  constructor
  · intro hp
    have hS : (openLightbox s w t1 r id ti).1.hadSmoother = true := by
      simp [openLightbox, hp]
    have hY : (openLightbox s w t1 r id ti).1.savedSmootherY = w.smootherY := by
      simp [openLightbox, hp]
    have h1 := closeLightbox_world_smoother (openLightbox s w t1 r id ti).1
      (openLightbox s w t1 r id ti).2 t2 hS
    exact ⟨h1.1.trans hY, h1.2⟩
  · intro hp
    have hS : (openLightbox s w t1 r id ti).1.hadSmoother = false := by
      simp [openLightbox, hp, hs]
    have hTop : (openLightbox s w t1 r id ti).2.docTopStyle =
        some (-(w.pageScrollY : Int)) := by
      simp [openLightbox, hp]
    have h1 := closeLightbox_world_native (openLightbox s w t1 r id ti).1
      (openLightbox s w t1 r id ti).2 t2 hS
    rw [h1, hTop]
    simp

/-- C4 witness: concrete native-path round trip from page offset 700. -/
theorem C4_scroll_roundtrip_witness :
    initLB.hadSmoother = false ∧
    ({ initWorld with pageScrollY := 700 } : World).smootherPresent = false ∧
    (closeLightbox
        (openLightbox initLB { initWorld with pageScrollY := 700 } 0 false "123" "Demo").1
        (openLightbox initLB { initWorld with pageScrollY := 700 } 0 false "123" "Demo").2
        10).2.pageScrollY = 700 := by
  refine ⟨rfl, rfl, ?_⟩
  exact (C4_scroll_roundtrip initLB { initWorld with pageScrollY := 700 }
    0 10 false "123" "Demo" rfl).2 rfl

/-- C6: `togglePlayPause` branches exactly as claimed.  While playing on a
restricted platform with the mute flag set, a tap runs the unmute chain
(`setMuted(false)`, `setVolume(1)`, then clears the flag, updates the
label — a no-op since there is no mute button — and requests a toast
dismissal) and never issues a pause; while playing otherwise it issues
pause.  While paused on a restricted platform with the mute flag set it
runs the unmute chain followed by `play`, with a fallback bare `play`
request if any chain step rejects; while paused otherwise it issues a
plain `play` whose rejection is swallowed (state unchanged for every
failure index). -/
theorem C6_toggle_play_pause (s : LB) (now : Nat) (p : Nat) (f : Option Nat)
    (hp : s.currentPlayer = some p) :
    (s.isPlaying = true → s.isMuted = true →
      togglePlayPause s now true none =
        (hideCenterToast { s with isMuted := false } now,
          [PCmd.setMutedFalse, PCmd.setVolumeFull]) ∧
      PCmd.pause ∉ (togglePlayPause s now true f).2) ∧
    (∀ restricted : Bool, s.isPlaying = true → (restricted && s.isMuted) = false →
      togglePlayPause s now restricted f = (s, [PCmd.pause])) ∧
    (s.isPlaying = false → s.isMuted = true →
      togglePlayPause s now true none =
        (hideCenterToast { s with isMuted := false } now,
          [PCmd.setMutedFalse, PCmd.setVolumeFull, PCmd.play]) ∧
      (∀ i, i < 3 → (togglePlayPause s now true (some i)).1 = s ∧
        PCmd.play ∈ (togglePlayPause s now true (some i)).2)) ∧
    (∀ restricted : Bool, s.isPlaying = false → (restricted && s.isMuted) = false →
      togglePlayPause s now restricted f = (s, [PCmd.play])) := by
  refine ⟨?_, ?_, ?_, ?_⟩
  · intro hpl hm
    constructor
    · simp [togglePlayPause, hp, hpl, hm]
    · rcases f with _ | i
      · simp [togglePlayPause, hp, hpl, hm]
      · match i with
        | 0 => simp [togglePlayPause, hp, hpl, hm]
        | 1 => simp [togglePlayPause, hp, hpl, hm]
        | n + 2 => simp [togglePlayPause, hp, hpl, hm]
  · intro restricted hpl hrm
    simp [togglePlayPause, hp, hpl, hrm]
  · intro hpl hm
    constructor
    · simp [togglePlayPause, hp, hpl, hm]
    · intro i hi
      interval_cases i <;> constructor <;> simp [togglePlayPause, hp, hpl, hm]
  · intro restricted hpl hrm
    simp [togglePlayPause, hp, hpl, hrm]

/-- C6 witness: concrete playing-restricted-muted state, with the
hypotheses discharged. -/
theorem C6_toggle_play_pause_witness :
    ({ initLB with currentPlayer := some 0, isPlaying := true } : LB).currentPlayer = some 0 ∧
    ({ initLB with currentPlayer := some 0, isPlaying := true } : LB).isPlaying = true ∧
    ({ initLB with currentPlayer := some 0, isPlaying := true } : LB).isMuted = true ∧
    togglePlayPause { initLB with currentPlayer := some 0, isPlaying := true } 0 true none =
      (hideCenterToast
          { initLB with currentPlayer := some 0, isPlaying := true, isMuted := false } 0,
        [PCmd.setMutedFalse, PCmd.setVolumeFull]) := by
  refine ⟨rfl, rfl, rfl, ?_⟩
  exact ((C6_toggle_play_pause { initLB with currentPlayer := some 0, isPlaying := true }
    0 0 none rfl).1 rfl rfl).1

/-- C7 counterexample: a `ready()` rejection delivered at 100ms — before
the unconditional 300ms controls-reveal timer armed at line 887 — enters
the error state, but the timer then re-shows the controls: final state has
the error placeholder active with the controls visible, so the controls do
not remain hidden. -/
theorem C7_counterexample :
    (afterReadyRejected (loadVideo initLB 0 false "123" true) 100).errorActive = true ∧
    (afterReadyRejected (loadVideo initLB 0 false "123" true) 100).controlsHidden = false := by
  constructor <;> rfl

/-- C7 (amended): when the ready promise rejects, `showError` displays the
error placeholder and hides the controls; they remain hidden for the rest
of the session provided the rejection arrives at or after the 300ms
controls-reveal timer (a rejection before 300ms is followed by that timer
re-showing the controls). -/
theorem C7_error_state (s : LB) (now : Nat) (r auto : Bool) (id : String) (tReject : Nat)
    (_hid : id ≠ "INVALID_VIDEO_ID_FOR_TESTING") (_hf : s.hasVideoFrame = true)
    (ht : 300 ≤ tReject) :
    (onReadyRejected (loadVideo s now r id auto)).errorActive = true ∧
    (onReadyRejected (loadVideo s now r id auto)).controlsHidden = true ∧
    (afterReadyRejected (loadVideo s now r id auto) tReject).errorActive = true ∧
    (afterReadyRejected (loadVideo s now r id auto) tReject).controlsHidden = true := by
  have hnt : ¬ tReject < 300 := by omega
  refine ⟨?_, ?_, ?_, ?_⟩ <;>
    simp [afterReadyRejected, onReadyRejected, onControlsRevealTimer, showError,
      hideControls, hideLoading, showControls, hnt]

/-- C7 witness: rejection at 500ms on a valid load. -/
theorem C7_error_state_witness :
    ("123" : String) ≠ "INVALID_VIDEO_ID_FOR_TESTING" ∧
    initLB.hasVideoFrame = true ∧ (300 : Nat) ≤ 500 ∧
    (afterReadyRejected (loadVideo initLB 0 false "123" true) 500).errorActive = true ∧
    (afterReadyRejected (loadVideo initLB 0 false "123" true) 500).controlsHidden = true := by
  refine ⟨by decide, rfl, by omega, ?_, ?_⟩
  · exact (C7_error_state initLB 0 false true "123" 500 (by decide) rfl (by omega)).2.2.1
  · exact (C7_error_state initLB 0 false true "123" 500 (by decide) rfl (by omega)).2.2.2

/-- C8 counterexample: a tile that is hidden at every instant and whose
iframe never fires `load` is still marked `video-failed` when the iframe
`error` event fires at 1000ms — the error listener (lines 555-558) has no
visibility check, refuting "a tile hidden at creation and never shown is
never marked failed". -/
theorem C8_counterexample :
    videoFailed { visibleAt := fun _ => false, loadAt := none,
                  errorAt := some 1000, zeroDimsAtSettle := false } = true := rfl

/-- C8 (amended): a visible tile whose iframe fires neither `load` nor
`error` is marked failed by the 5-second timer; the timer never marks a
tile hidden at the 5-second check; and a tile hidden at every instant is
never marked failed unless the iframe `error` event fires, which marks it
regardless of visibility. -/
theorem C8_preview_failure (r : TileRun) :
    (r.loadAt = none → r.errorAt = none → r.visibleAt 5000 = true →
      markedByTimer r = true ∧ videoFailed r = true) ∧
    (r.visibleAt 5000 = false → markedByTimer r = false) ∧
    ((∀ t, r.visibleAt t = false) → r.errorAt = none → videoFailed r = false) := by
  refine ⟨?_, ?_, ?_⟩
  · intro hl he hv
    constructor <;>
      simp [markedByTimer, timerFires, videoFailed, markedByError, markedBySettle,
        hl, he, hv]
  · intro hv
    simp [markedByTimer, hv]
  · intro hv he
    cases hl : r.loadAt <;>
      simp [videoFailed, markedByError, markedByTimer, markedBySettle, timerFires,
        he, hv, hl]

/-- C8 witness: a visible tile with no `load` and no `error` event is
marked failed (by the 5s timer). -/
theorem C8_preview_failure_witness :
    ({ visibleAt := fun _ => true, loadAt := none, errorAt := none,
       zeroDimsAtSettle := false } : TileRun).loadAt = none ∧
    videoFailed { visibleAt := fun _ => true, loadAt := none, errorAt := none,
                  zeroDimsAtSettle := false } = true := by
  refine ⟨rfl, ?_⟩
  exact ((C8_preview_failure _).1 rfl rfl rfl).2

/-- C9: the source defines `observeDOMForLightbox` (lines 48-60) whose
callback re-triggers activation exactly when the lightbox element plus at
least one thumbnail or tile appear, with a 10s disconnect deadline — but
no call site ever invokes it: neither the `tryInitLightbox` retry loop nor
`initLightbox` ever arms the observer, and when the markup never appears
the flow emits nine 500ms retries and a fatal log, never an observer. -/
theorem C9_observer_never_armed :
    (∀ env fuel va c, (initTrace env fuel va c).count InitAct.armObserver = 0) ∧
    (∀ env fuel attempts,
      (tryInitTrace env fuel attempts).count InitAct.armObserver = 0) ∧
    tryInitTrace { vimeoReady := fun _ => true, lightboxPresent := fun _ => false,
                   markupReady := fun _ => false } 30 0 =
      List.replicate 9 (InitAct.scheduleRetry 500) ++
        [InitAct.logError "Failed to initialize lightbox. Check HTML structure."] ∧
    observerCallbackFires true true false = true ∧
    observerCallbackFires false true true = false ∧
    observerTimeoutMs = 10000 := by
  have hinit : ∀ fuel env va c, (initTrace env fuel va c).count InitAct.armObserver = 0 := by
    intro fuel
    induction fuel with
    | zero => intro env va c; simp [initTrace]
    | succ n ih =>
      intro env va c
      simp only [initTrace]
      split
      · split
        · simp [List.count_cons, ih]
        · simp
      · split
        · simp [List.count_cons, ih]
        · simp
  have htry : ∀ fuel env attempts,
      (tryInitTrace env fuel attempts).count InitAct.armObserver = 0 := by
    intro fuel
    induction fuel with
    | zero => intro env attempts; simp [tryInitTrace]
    | succ n ih =>
      intro env attempts
      simp only [tryInitTrace]
      split
      · exact hinit n env 0 0
      · split
        · simp [List.count_cons, ih]
        · simp
  exact ⟨fun env fuel va c => hinit fuel env va c,
    fun env fuel attempts => htry fuel env attempts, by rfl, rfl, rfl, rfl⟩

/-- C10 counterexample: the hover handler's guard (line 369) checks only
the timeline container and the cached duration, not the player handle;
with `currentPlayer = none` and a stale nonzero duration (reachable via
`destroy()`, which nulls the handle without resetting the duration) a
hover event still updates the hover-time label. -/
theorem C10_counterexample :
    ({ initLB with videoDuration := 120 } : LB).currentPlayer = none ∧
    handleTimelineHover { initLB with videoDuration := 120 } ⟨0, 100⟩ ⟨0, 100⟩ ⟨50⟩ =
      [TLEffect.setHoverText "1:00", TLEffect.setHoverLeft 50,
       TLEffect.setHoverOpacity "1"] := by
  constructor
  · rfl
  · have hfrac : hoverFraction 50 (Rect.mk 0 100) = 1 / 2 := by
      unfold hoverFraction
      norm_num [min_eq_right, max_eq_right]
    have hft : formatTime 60 = "1:00" := by
      unfold formatTime
      norm_num
      rfl
    simp only [handleTimelineHover]
    rw [if_neg (by norm_num [initLB])]
    simp only [hfrac]
    norm_num [hft]

/-- C10 (amended): click and drag return without any effect when no player
handle exists or the cached duration is 0; hover returns without any
effect when the timeline container is missing or the duration is 0, and
never issues a seek — but hover does not check the player handle, so with
a cached nonzero duration it still updates the hover label. -/
theorem C10_timeline_guards (s : LB) (trackRect containerRect : Rect) (e : PointerEv) :
    (s.currentPlayer = none ∨ s.videoDuration = 0 →
      handleTimelineClick s trackRect e = [] ∧
      handleTimelineDrag s trackRect containerRect e = []) ∧
    (s.hasTimelineContainer = false ∨ s.videoDuration = 0 →
      handleTimelineHover s trackRect containerRect e = []) ∧
    (∀ t, TLEffect.seek t ∉ handleTimelineHover s trackRect containerRect e) := by
  refine ⟨?_, ?_, ?_⟩
  · intro h
    constructor <;> simp [handleTimelineClick, handleTimelineDrag, h]
  · intro h
    simp [handleTimelineHover, h]
  · intro t
    unfold handleTimelineHover
    split
    · simp
    · simp

/-- C10 witness: with the fresh controller (duration 0) click and drag are
no-ops. -/
theorem C10_timeline_guards_witness :
    (initLB.currentPlayer = none ∨ initLB.videoDuration = 0) ∧
    handleTimelineClick initLB ⟨0, 100⟩ ⟨50⟩ = [] ∧
    handleTimelineDrag initLB ⟨0, 100⟩ ⟨0, 100⟩ ⟨50⟩ = [] :=
  ⟨Or.inl rfl,
    ((C10_timeline_guards initLB ⟨0, 100⟩ ⟨0, 100⟩ ⟨50⟩).1 (Or.inl rfl)).1,
    ((C10_timeline_guards initLB ⟨0, 100⟩ ⟨0, 100⟩ ⟨50⟩).1 (Or.inl rfl)).2⟩

end Hike
